import Mathlib

/-!
Verification of the llm-gateway-go repository (src/gateway.go, two variants).

The repository contains two variants of an LLM gateway; the later,
metrics-bearing variant is the canonical target.  We give a shallow
embedding of the request-handling pipeline: JSON payload decoding
(`encoding/json` semantics for the `RequestPayload` / `Message`
structures), prompt-length analysis (`getPromptLength`), the routing
policy, credential resolution, the metrics aggregator, and the
response-writer semantics of Go's `net/http` (header-map changes after
`WriteHeader` are not sent to the caller).
-/

namespace LLMGateway

/-- JSON values, as produced by a syntactic JSON parse of the request body.
`num` carries an integer; numeric precision is irrelevant here because the
decoded structures contain no numeric fields. -/
inductive Json where
  | null : Json
  | bool : Bool → Json
  | num : Int → Json
  | str : String → Json
  | arr : List Json → Json
  | obj : List (String × Json) → Json

-- --- CONFIGURATION (src/gateway.go, canonical variant, lines 196-209) ---

def cheapModelURL : String := "http://localhost:8081/v1/chat/completions"

def expensiveModelURL : String := "http://localhost:8082/v1/chat/completions"

def promptLengthThreshold : Int := 150

def cheapModelCostPerChar : ℚ := 1 / 10000000

def expensiveModelCostPerChar : ℚ := 15 / 10000000

-- --- REQUEST BODY STRUCTURES (gateway.go lines 213-222) ---

/-- `Message` mirrors a single message object in the chat request. -/
structure Message where
  role : String
  content : String
deriving Repr, DecidableEq

/-- `RequestPayload` mirrors the top-level structure of the incoming chat
completion request. -/
structure RequestPayload where
  messages : List Message
deriving Repr, DecidableEq

/-- Go zero value of `Message`. -/
def Message.zero : Message := ⟨"", ""⟩

/-- Go zero value of `RequestPayload` (nil slice of messages). -/
def RequestPayload.zero : RequestPayload := ⟨[]⟩

-- --- encoding/json UNMARSHALLING SEMANTICS ---

/-- Unicode simple case folding (as used by Go's `strings.EqualFold`) of
one rune of a JSON key against one letter of an ASCII-lowercase struct
field name: the rune matches iff it is the letter itself, its ASCII
uppercase, or a non-ASCII fold-equivalent of an ASCII letter — long s ſ
(U+017F) folds with s, and the Kelvin sign (U+212A) folds with k.  (All
other non-ASCII fold cycles, e.g. the Angstrom sign with å, contain no
ASCII letter and can never match a letter of these field names.) -/
def runeFoldMatches (c target : Char) : Bool :=
  c = target || c.toLower = target
    || (target = 's' && c = 'ſ')
    || (target = 'k' && c = Char.ofNat 0x212A)

/-- Go's `strings.EqualFold(key, fieldName)` for the ASCII-lowercase
field names of this repository's structs: same rune count, and each rune
of the key folds to the corresponding letter of the field name.
`encoding/json` matches object keys to struct fields preferring an exact
match but also accepting such a case-insensitive match; with one field
per name, a key is consumed by the field iff it fold-matches the field
name. -/
def keyMatchesFieldName (key fieldName : String) : Bool :=
  key.toList.length == fieldName.toList.length
    && (key.toList.zip fieldName.toList).all (fun p => runeFoldMatches p.1 p.2)

/-- Unmarshal a JSON value into a Go `string` field holding `cur`:
JSON null leaves the field unchanged, a JSON string overwrites it, any
other value is an UnmarshalTypeError. -/
def updStringField (cur : String) : Json → Except String String
  | .null => .ok cur
  | .str s => .ok s
  | _ => .error "json: cannot unmarshal value into Go value of type string"

/-- Unmarshal a JSON value into a `Message` holding `cur`: null leaves it,
an object is decoded field by field (keys matched to the "role" and
"content" fields up to Go's case-insensitive fold, processed in order,
later duplicates overwrite, unknown keys ignored), anything else
errors. -/
def updMessage (cur : Message) : Json → Except String Message
  | .null => .ok cur
  | .obj fields =>
      fields.foldlM (fun m kv =>
        if keyMatchesFieldName kv.1 "role" then
          (updStringField m.role kv.2).map (fun r => { m with role := r })
        else if keyMatchesFieldName kv.1 "content" then
          (updStringField m.content kv.2).map (fun c => { m with content := c })
        else
          .ok m) cur
  | _ => .error "json: cannot unmarshal value into Go value of type main.Message"

/-- Unmarshal a JSON value into a `[]Message` field: null sets the slice to
nil, an array decodes every element into a fresh zero `Message`, anything
else errors. -/
def updMessages (_cur : List Message) : Json → Except String (List Message)
  | .null => .ok []
  | .arr xs => xs.mapM (fun x => updMessage Message.zero x)
  | _ => .error "json: cannot unmarshal value into Go value of type []main.Message"

/-- Unmarshal a JSON value into a `RequestPayload` holding `cur`: null
leaves it, an object is decoded field by field (keys matched to the
"messages" field up to Go's case-insensitive fold, unknown keys ignored),
anything else errors. -/
def updPayload (cur : RequestPayload) : Json → Except String RequestPayload
  | .null => .ok cur
  | .obj fields =>
      fields.foldlM (fun p kv =>
        if keyMatchesFieldName kv.1 "messages" then
          (updMessages p.messages kv.2).map (fun ms => ⟨ms⟩)
        else
          .ok p) cur
  | _ => .error "json: cannot unmarshal value into Go value of type main.RequestPayload"

/-- The body handed to `json.Unmarshal`: `none` stands for a byte sequence
that is not syntactically valid JSON, `some j` for one whose parse is `j`.
`json.Unmarshal(bodyBytes, &payload)` on a fresh zero `payload`. -/
def unmarshalRequestPayload : Option Json → Except String RequestPayload
  | none => .error "invalid character in JSON input"
  | some j => updPayload RequestPayload.zero j

-- --- INTELLIGENCE CORE ---

/-- `getPromptLength` (gateway.go lines 227-243): unmarshal the body, then
sum `len(message.Content)` (byte length) over messages whose role is
"user".  On unmarshal failure returns the error and the caller aborts. -/
def getPromptLength (body : Option Json) : Except String Nat :=
  match unmarshalRequestPayload body with
  | .error e => .error ("failed to unmarshal JSON request body: " ++ e)
  | .ok payload =>
      .ok (payload.messages.foldl
        (fun acc message =>
          if message.role = "user" then acc + message.content.utf8ByteSize else acc) 0)

/-- `analyzePrompt` (gateway.go lines 39-69, the earlier variant): defaults
to the cheap model, on unmarshal failure keeps the default, otherwise sums
`len(msg.Content)` over ALL messages (no role filter) and routes to the
expensive model when the total exceeds the threshold of 150. -/
def analyzePrompt (body : Option Json) : String × String :=
  match unmarshalRequestPayload body with
  | .error _ => (cheapModelURL, "CheapModel")
  | .ok payload =>
      let totalLength : Nat := payload.messages.foldl (fun acc msg => acc + msg.content.utf8ByteSize) 0
      if (totalLength : Int) > 150 then (expensiveModelURL, "ExpensiveModel")
      else (cheapModelURL, "CheapModel")

-- --- ROUTING POLICY (gateway.go lines 291-306) ---

/-- The routing decision computed by the canonical handler: destination
endpoint, tier label and per-character cost rate. -/
structure RoutingDecision where
  targetURL : String
  modelName : String
  costPerChar : ℚ
deriving Repr, DecidableEq

/-- The model-selection policy of `LLMProxyHandler` (gateway.go lines
295-303): lengths of at most `promptLengthThreshold` go to the cheap
model, longer ones to the expensive model. -/
def route (totalPromptLength : Int) : RoutingDecision :=
  if totalPromptLength ≤ promptLengthThreshold then
    ⟨cheapModelURL, "CheapModel", cheapModelCostPerChar⟩
  else
    ⟨expensiveModelURL, "ExpensiveModel", expensiveModelCostPerChar⟩

/-- `estimatedCost := float64(totalPromptLength) * costPerChar`
(gateway.go line 306), modelled over ℚ. -/
def estimatedCostOf (totalPromptLength : Nat) (costPerChar : ℚ) : ℚ :=
  (totalPromptLength : ℚ) * costPerChar

-- --- METRICS AGGREGATOR (gateway.go lines 176-192, 361-365, 373-375) ---

/-- Go map `map[string]int` as an association list; `mapGet` is map read
(zero value for a missing key), `mapSet` is assignment `m[k] = v`
(overwrites the existing entry or inserts), `mapIncr` is `m[k]++`. -/
def mapGet (m : List (String × Nat)) (k : String) : Nat :=
  match m with
  | [] => 0
  | kv :: rest => if kv.1 = k then kv.2 else mapGet rest k

def mapSet (m : List (String × Nat)) (k : String) (v : Nat) : List (String × Nat) :=
  match m with
  | [] => [(k, v)]
  | kv :: rest => if kv.1 = k then (k, v) :: rest else kv :: mapSet rest k v

def mapIncr (m : List (String × Nat)) (k : String) : List (String × Nat) :=
  match m with
  | [] => [(k, 1)]
  | kv :: rest => if kv.1 = k then (kv.1, kv.2 + 1) :: rest else kv :: mapIncr rest k

/-- Sum of all counts stored in a `ModelUsage` map. -/
def sumUsage (m : List (String × Nat)) : Nat :=
  (m.map (fun kv => kv.2)).sum

/-- `LLMUsageMetrics` (gateway.go lines 177-181): total requests, total
accrued cost (modelled over ℚ), and per-model request counts. -/
structure LLMUsageMetrics where
  totalRequests : Nat
  totalCost : ℚ
  modelUsage : List (String × Nat)
deriving Repr, DecidableEq

/-- `globalMetrics` as declared (gateway.go lines 187-191): zero counters
and an empty map. -/
def globalMetricsDecl : LLMUsageMetrics :=
  { totalRequests := 0, totalCost := 0, modelUsage := [] }

/-- The metrics state right after `main` seeds the map with both tier
labels at zero (gateway.go lines 373-375). -/
def initialMetrics : LLMUsageMetrics :=
  { globalMetricsDecl with
      modelUsage :=
        mapSet (mapSet globalMetricsDecl.modelUsage "CheapModel" 0) "ExpensiveModel" 0 }

/-- The metrics update performed inside the mutex-guarded critical section
(gateway.go lines 361-365): `TotalRequests++`, `TotalCost += estimatedCost`,
`ModelUsage[modelName]++`. -/
def recordMetrics (m : LLMUsageMetrics) (modelName : String) (estimatedCost : ℚ) :
    LLMUsageMetrics :=
  { totalRequests := m.totalRequests + 1
    totalCost := m.totalCost + estimatedCost
    modelUsage := mapIncr m.modelUsage modelName }

-- --- net/http RESPONSE WRITER SEMANTICS ---

/-- The state of Go's `http.ResponseWriter` as the handler sees it.
`headerMap` is the mutable map behind `w.Header()`.  `WriteHeader`
freezes what goes on the wire: `sentStatus` and `sentHeaders` record the
status code and a snapshot of the header map at the moment of the first
`WriteHeader` call; per net/http's documented behavior, changing the
header map after `WriteHeader` has no effect on what the caller
observes. -/
structure ResponseWriter where
  headerMap : List (String × List String)
  wroteHeader : Bool
  sentStatus : Option Nat
  sentHeaders : List (String × List String)
deriving Repr, DecidableEq

def ResponseWriter.init : ResponseWriter :=
  { headerMap := [], wroteHeader := false, sentStatus := none, sentHeaders := [] }

/-- Assignment into the header map, `w.Header()[name] = values` or
`w.Header().Set(name, value)` (single value). -/
def headerAssign (m : List (String × List String)) (k : String) (v : List String) :
    List (String × List String) :=
  match m with
  | [] => [(k, v)]
  | kv :: rest => if kv.1 = k then (k, v) :: rest else kv :: headerAssign rest k v

def ResponseWriter.setHeader (w : ResponseWriter) (k : String) (v : List String) :
    ResponseWriter :=
  { w with headerMap := headerAssign w.headerMap k v }

/-- `w.WriteHeader(code)`: the first call sends the status line and the
current header map; superfluous later calls are ignored (logged only). -/
def ResponseWriter.writeHeader (w : ResponseWriter) (code : Nat) : ResponseWriter :=
  if w.wroteHeader then w
  else { w with wroteHeader := true, sentStatus := some code, sentHeaders := w.headerMap }

/-- `http.Error(w, msg, code)`: sets Content-Type and
X-Content-Type-Options on the header map, then writes the header. -/
def httpError (w : ResponseWriter) (code : Nat) : ResponseWriter :=
  ((w.setHeader "Content-Type" ["text/plain; charset=utf-8"]).setHeader
      "X-Content-Type-Options" ["nosniff"]).writeHeader code

/-- Header lookup on what was actually sent to the caller. -/
def headerLookup (m : List (String × List String)) (k : String) : Option (List String) :=
  match m with
  | [] => none
  | kv :: rest => if kv.1 = k then some kv.2 else headerLookup rest k

-- --- THE CANONICAL PROXY HANDLER (gateway.go lines 264-370) ---

/-- The inbound request as the handler consumes it.  `authorization` and
`contentType` are `r.Header.Get(...)` results ("" when the header is
absent).  `bodyReadOk` models whether `io.ReadAll(r.Body)` succeeds, and
`body` is the JSON parse of the body bytes (`none` = syntactically invalid
JSON). -/
structure Request where
  method : String
  authorization : String
  contentType : String
  bodyReadOk : Bool
  body : Option Json

/-- The upstream response visible to the handler (`resp.StatusCode`,
`resp.Header`). -/
structure UpstreamResponse where
  statusCode : Nat
  headers : List (String × List String)

/-- What `client.Do(proxyReq)` returns: a transport-level failure
(connect error or timeout), or a response together with whether the
subsequent `io.Copy` of the body back to the caller succeeds. -/
inductive UpstreamResult where
  | transportError
  | response (resp : UpstreamResponse) (copyOk : Bool)

/-- Everything observable after one run of the handler: the final response
writer, whether `client.Do` was invoked, the Authorization header placed
on the upstream request (`none` when the handler exits before building
it, or when no credential is forwarded), and the final metrics state. -/
structure HandlerResult where
  writer : ResponseWriter
  upstreamCalled : Bool
  proxyAuth : Option (Option String)
  metrics : LLMUsageMetrics

/-- The credential resolution chain (gateway.go lines 314-319): prefer the
inbound Authorization header; if empty, synthesize from the environment
key when configured; otherwise stay empty. -/
def resolveAuthHeader (inboundAuth apiKey : String) : String :=
  if inboundAuth = "" then
    (if apiKey ≠ "" then "Bearer " ++ apiKey else "")
  else inboundAuth

/-- `LLMProxyHandler` (gateway.go lines 264-370), the canonical variant,
as a pure function of the request, the environment-configured API key,
the upstream behavior and the incoming metrics state.  The successful
branch reproduces the source order faithfully: `w.WriteHeader` first,
THEN the copy of upstream headers into `w.Header()`, then the body copy,
then the mutex-guarded metrics update. -/
def LLMProxyHandler (req : Request) (apiKeyEnvVal : String) (upstream : UpstreamResult)
    (metrics : LLMUsageMetrics) : HandlerResult :=
  let w := ResponseWriter.init
  if req.method ≠ "POST" then
    ⟨httpError w 405, false, none, metrics⟩
  else if ¬ req.bodyReadOk then
    ⟨httpError w 500, false, none, metrics⟩
  else
    match getPromptLength req.body with
    | .error _ => ⟨httpError w 400, false, none, metrics⟩
    | .ok totalPromptLength =>
        let decision := route (totalPromptLength : Int)
        let estimatedCost := estimatedCostOf totalPromptLength decision.costPerChar
        let authHeader := resolveAuthHeader req.authorization apiKeyEnvVal
        let proxyAuth : Option String := if authHeader ≠ "" then some authHeader else none
        match upstream with
        | .transportError =>
            ⟨httpError w 502, true, some proxyAuth, metrics⟩
        | .response resp _copyOk =>
            let w := w.writeHeader resp.statusCode
            let w := resp.headers.foldl (fun w kv => { w with
                headerMap := headerAssign w.headerMap kv.1 kv.2 }) w
            let metrics' := recordMetrics metrics decision.modelName estimatedCost
            ⟨w, true, some proxyAuth, metrics'⟩

-- --- HELPER LEMMAS ---

/-- The user-message length fold of `getPromptLength` equals the starting
accumulator plus the sum of user-message content byte lengths. -/
theorem userLengthFoldl (ms : List Message) (acc : Nat) :
    ms.foldl
        (fun acc message =>
          if message.role = "user" then acc + message.content.utf8ByteSize else acc) acc
      = acc
        + ((ms.filter (fun m => m.role == "user")).map
            (fun m => m.content.utf8ByteSize)).sum := by
  induction ms generalizing acc with
  | nil => simp
  | cons m ms ih =>
      by_cases h : m.role = "user" <;> simp [h, ih]
      omega

/-- The unfiltered length fold of `analyzePrompt` equals the starting
accumulator plus the sum of all content byte lengths. -/
theorem allLengthFoldl (ms : List Message) (acc : Nat) :
    ms.foldl (fun acc msg => acc + msg.content.utf8ByteSize) acc
      = acc + (ms.map (fun m => m.content.utf8ByteSize)).sum := by
  induction ms generalizing acc with
  | nil => simp
  | cons m ms ih => simp [ih]; omega

/-- `m[k]++` on a Go map increases the sum of stored counts by one. -/
theorem sumUsage_mapIncr (m : List (String × Nat)) (k : String) :
    sumUsage (mapIncr m k) = sumUsage m + 1 := by
  induction m with
  | nil => simp [mapIncr, sumUsage]
  | cons kv rest ih =>
      by_cases h : kv.1 = k <;> simp [mapIncr, h, sumUsage] at ih ⊢
      all_goals omega

-- --- CLAIM THEOREMS ---

/-- C1: for every integer prompt length `L`, the routing decision selects
the CheapModel endpoint with tier label "CheapModel" iff `L ≤ 150`, and
the ExpensiveModel endpoint with tier label "ExpensiveModel" iff
`L > 150`; `route` is a plain (deterministic, pure, total) function of
`L`, and `L = 150` routes cheap. -/
theorem route_cheap_iff_le_threshold (L : Int) :
    ((route L).modelName = "CheapModel" ∧ (route L).targetURL = cheapModelURL ↔ L ≤ 150)
    ∧ ((route L).modelName = "ExpensiveModel" ∧ (route L).targetURL = expensiveModelURL
        ↔ 150 < L) := by
  by_cases h : L ≤ 150 <;>
    simp [route, promptLengthThreshold, h, cheapModelURL, expensiveModelURL]
  all_goals omega

/-- C5: for every body that unmarshals to a valid `RequestPayload`, the
computed prompt length is the sum of the byte lengths of the contents of
exactly the messages whose role is "user"; other roles contribute nothing
and cause no error. -/
theorem promptLength_eq_user_content_sum (body : Option Json) (p : RequestPayload)
    (h : unmarshalRequestPayload body = .ok p) :
    getPromptLength body
      = .ok (((p.messages.filter (fun m => m.role == "user")).map
          (fun m => m.content.utf8ByteSize)).sum) := by
  unfold getPromptLength
  rw [h]
  simp [userLengthFoldl]

/-- Witness for C5 at a concrete body with one user and one system
message: the length is the two bytes of the user content only. -/
theorem promptLength_eq_user_content_sum_witness :
    getPromptLength (some (.obj [("messages", .arr
        [.obj [("role", .str "user"), ("content", .str "hi")],
         .obj [("role", .str "system"), ("content", .str "xyz")]])]))
      = .ok ((((⟨[⟨"user", "hi"⟩, ⟨"system", "xyz"⟩]⟩ :
          RequestPayload).messages.filter (fun m => m.role == "user")).map
          (fun m => m.content.utf8ByteSize)).sum) :=
  promptLength_eq_user_content_sum _ ⟨[⟨"user", "hi"⟩, ⟨"system", "xyz"⟩]⟩ rfl

/-- C3: for every request body whose unmarshalling as the chat payload
fails, the handler responds 400, never calls the upstream, and leaves the
metrics state exactly as it found it, whatever the upstream would have
answered. -/
theorem malformed_body_400_no_upstream_no_metrics (req : Request) (apiKey : String)
    (upstream : UpstreamResult) (metrics : LLMUsageMetrics) (e : String)
    (hm : req.method = "POST") (hb : req.bodyReadOk = true)
    (hp : getPromptLength req.body = .error e) :
    (LLMProxyHandler req apiKey upstream metrics).writer.sentStatus = some 400
      ∧ (LLMProxyHandler req apiKey upstream metrics).upstreamCalled = false
      ∧ (LLMProxyHandler req apiKey upstream metrics).metrics = metrics := by
  unfold LLMProxyHandler
  simp [hm, hb, hp, httpError, ResponseWriter.writeHeader, ResponseWriter.setHeader,
    ResponseWriter.init]

/-- Witness for C3: a body that is a JSON number is rejected with 400,
no upstream call, metrics untouched. -/
theorem malformed_body_400_no_upstream_no_metrics_witness :
    (LLMProxyHandler ⟨"POST", "", "application/json", true, some (.num 5)⟩ ""
        .transportError initialMetrics).writer.sentStatus = some 400
      ∧ (LLMProxyHandler ⟨"POST", "", "application/json", true, some (.num 5)⟩ ""
          .transportError initialMetrics).upstreamCalled = false
      ∧ (LLMProxyHandler ⟨"POST", "", "application/json", true, some (.num 5)⟩ ""
          .transportError initialMetrics).metrics = initialMetrics :=
  malformed_body_400_no_upstream_no_metrics _ _ _ _
    ("failed to unmarshal JSON request body: "
      ++ "json: cannot unmarshal value into Go value of type main.RequestPayload")
    rfl rfl rfl

/-- C4: for every routed request (method POST, body read, payload valid),
a transport-level upstream failure yields a 502 with the metrics
unchanged, while a completed upstream exchange updates the metrics by
exactly one `recordMetrics` step, for every upstream status code and
whether or not the stream-back copy succeeds. -/
theorem metrics_recorded_iff_upstream_responded (req : Request) (apiKey : String)
    (metrics : LLMUsageMetrics) (n : Nat)
    (hm : req.method = "POST") (hb : req.bodyReadOk = true)
    (hok : getPromptLength req.body = .ok n) :
    ((LLMProxyHandler req apiKey .transportError metrics).writer.sentStatus = some 502
      ∧ (LLMProxyHandler req apiKey .transportError metrics).metrics = metrics)
    ∧ (∀ (resp : UpstreamResponse) (copyOk : Bool),
        (LLMProxyHandler req apiKey (.response resp copyOk) metrics).metrics
          = recordMetrics metrics (route (n : Int)).modelName
              (estimatedCostOf n (route (n : Int)).costPerChar)) := by
  unfold LLMProxyHandler
  simp [hm, hb, hok, httpError, ResponseWriter.writeHeader, ResponseWriter.setHeader,
    ResponseWriter.init]

/-- Witness for C4 at a concrete valid request: upstream 500 with a failed
copy still records exactly one update, transport error records none. -/
theorem metrics_recorded_iff_upstream_responded_witness :
    ((LLMProxyHandler ⟨"POST", "", "application/json", true, some (.obj [])⟩ ""
        .transportError initialMetrics).writer.sentStatus = some 502
      ∧ (LLMProxyHandler ⟨"POST", "", "application/json", true, some (.obj [])⟩ ""
          .transportError initialMetrics).metrics = initialMetrics)
    ∧ (∀ (resp : UpstreamResponse) (copyOk : Bool),
        (LLMProxyHandler ⟨"POST", "", "application/json", true, some (.obj [])⟩ ""
            (.response resp copyOk) initialMetrics).metrics
          = recordMetrics initialMetrics (route ((0 : Nat) : Int)).modelName
              (estimatedCostOf 0 (route ((0 : Nat) : Int)).costPerChar)) :=
  metrics_recorded_iff_upstream_responded _ _ _ 0 rfl rfl rfl

/-- C8: on every request that reaches the upstream-request construction,
the Authorization value forwarded upstream follows the chain: a non-empty
inbound Authorization header is forwarded verbatim; otherwise a non-empty
environment key is forwarded as "Bearer " + key; otherwise no
Authorization header is sent. -/
theorem auth_forwarding_chain (req : Request) (apiKey : String)
    (upstream : UpstreamResult) (metrics : LLMUsageMetrics) (n : Nat)
    (hm : req.method = "POST") (hb : req.bodyReadOk = true)
    (hok : getPromptLength req.body = .ok n) :
    (LLMProxyHandler req apiKey upstream metrics).proxyAuth
      = some (if req.authorization ≠ "" then some req.authorization
          else if apiKey ≠ "" then some ("Bearer " ++ apiKey) else none) := by
  have hne : ∀ s : String, "Bearer " ++ s ≠ "" := by
    intro s hcontra
    have hlen := congrArg String.length hcontra
    simp [String.length_append] at hlen
    exact absurd hlen.1 (by decide)
  unfold LLMProxyHandler
  by_cases ha : req.authorization = "" <;> by_cases hk : apiKey = "" <;>
    cases upstream <;>
      simp [hm, hb, hok, ha, hk, resolveAuthHeader, hne, httpError,
        ResponseWriter.writeHeader, ResponseWriter.setHeader, ResponseWriter.init]

/-- Witness for C8: with an empty inbound header and a configured key,
the forwarded credential is "Bearer key". -/
theorem auth_forwarding_chain_witness :
    (LLMProxyHandler ⟨"POST", "", "application/json", true, some (.obj [])⟩ "key"
        (.response ⟨200, []⟩ true) initialMetrics).proxyAuth
      = some (if ("" : String) ≠ "" then some ""
          else if ("key" : String) ≠ "" then some ("Bearer " ++ "key") else none) :=
  auth_forwarding_chain _ _ _ _ 0 rfl rfl rfl

/-- C2: the handler calls `w.WriteHeader(resp.StatusCode)` BEFORE copying
the upstream headers into `w.Header()` (gateway.go lines 349-352); since
changes to the header map after `WriteHeader` are never sent, the caller
observes the upstream status code but NONE of the upstream headers.  At a
concrete upstream response carrying the header X-Request-Id, the header
map ends up holding the copied header, yet the headers actually sent to
the caller are empty and do not contain it. -/
theorem upstream_headers_copied_after_writeHeader :
    (LLMProxyHandler ⟨"POST", "", "application/json", true, some (.obj [])⟩ ""
        (.response ⟨200, [("X-Request-Id", ["abc"])]⟩ true) initialMetrics).writer.sentStatus
      = some 200
    ∧ headerLookup (LLMProxyHandler ⟨"POST", "", "application/json", true, some (.obj [])⟩ ""
        (.response ⟨200, [("X-Request-Id", ["abc"])]⟩ true) initialMetrics).writer.headerMap
        "X-Request-Id" = some ["abc"]
    ∧ (LLMProxyHandler ⟨"POST", "", "application/json", true, some (.obj [])⟩ ""
        (.response ⟨200, [("X-Request-Id", ["abc"])]⟩ true) initialMetrics).writer.sentHeaders
      = []
    ∧ headerLookup (LLMProxyHandler ⟨"POST", "", "application/json", true, some (.obj [])⟩ ""
        (.response ⟨200, [("X-Request-Id", ["abc"])]⟩ true) initialMetrics).writer.sentHeaders
        "X-Request-Id" = none :=
  ⟨rfl, rfl, rfl, rfl⟩

/-- The metrics invariant of the spec: the total request count equals the
sum of all per-model counts. -/
def metricsInvariant (m : LLMUsageMetrics) : Prop :=
  m.totalRequests = sumUsage m.modelUsage

/-- C6: after initialization both tier labels are seeded at zero and
`totalRequests = sum(modelUsage)` holds; every `recordMetrics` update
preserves the invariant, and with a non-negative cost delta (which is the
only kind the handler produces) `totalCost` never decreases. -/
theorem metrics_invariant_and_monotone_cost :
    (metricsInvariant initialMetrics
      ∧ mapGet initialMetrics.modelUsage "CheapModel" = 0
      ∧ mapGet initialMetrics.modelUsage "ExpensiveModel" = 0)
    ∧ (∀ (m : LLMUsageMetrics) (name : String) (c : ℚ),
        metricsInvariant m → metricsInvariant (recordMetrics m name c))
    ∧ (∀ (m : LLMUsageMetrics) (name : String) (c : ℚ),
        0 ≤ c → m.totalCost ≤ (recordMetrics m name c).totalCost) := by
  refine ⟨⟨by unfold metricsInvariant; decide, by decide, by decide⟩, ?_, ?_⟩
  · intro m name c h
    unfold metricsInvariant at h ⊢
    simp [recordMetrics, sumUsage_mapIncr, h]
  · intro m name c h
    unfold recordMetrics
    simpa using h

/-- Witness for C6: one concrete record step on the fresh aggregator
preserves the invariant and does not decrease the total cost. -/
theorem metrics_invariant_and_monotone_cost_witness :
    metricsInvariant (recordMetrics initialMetrics "CheapModel" (2 / 10000000))
      ∧ initialMetrics.totalCost
          ≤ (recordMetrics initialMetrics "CheapModel" (2 / 10000000)).totalCost :=
  ⟨metrics_invariant_and_monotone_cost.2.1 initialMetrics "CheapModel" (2 / 10000000)
      metrics_invariant_and_monotone_cost.1.1,
   metrics_invariant_and_monotone_cost.2.2 initialMetrics "CheapModel" (2 / 10000000)
      (by norm_num)⟩

/-- A sequence of record operations (tier label, cost delta) applied to
the freshly initialized aggregator.  The single mutex makes every
`record` critical section atomic, so any interleaving of N concurrent
records is some sequential order of the N operations, and any state a
snapshot can observe is the state after some prefix of that order. -/
def runRecords (ops : List (String × ℚ)) : LLMUsageMetrics :=
  ops.foldl (fun m op => recordMetrics m op.1 op.2) initialMetrics

/-- Folding record operations over any start state adds the number of
operations to both the total count and the usage sum. -/
theorem runRecordsAux (ops : List (String × ℚ)) (m : LLMUsageMetrics) :
    (ops.foldl (fun m op => recordMetrics m op.1 op.2) m).totalRequests
        = m.totalRequests + ops.length
    ∧ sumUsage (ops.foldl (fun m op => recordMetrics m op.1 op.2) m).modelUsage
        = sumUsage m.modelUsage + ops.length := by
  induction ops generalizing m with
  | nil => simp
  | cons op rest ih =>
      have h := ih (recordMetrics m op.1 op.2)
      simp [recordMetrics, sumUsage_mapIncr] at h
      simp [recordMetrics, h.1, h.2, sumUsage_mapIncr]
      omega

/-- C7: any sequential order of N record operations against a fresh
aggregator (which, given the single mutex, covers every interleaving of N
concurrent `record` calls) ends with `totalRequests = N` and
`sum(modelUsage) = N`; moreover every state a snapshot can observe — the
state after any prefix of the order — satisfies
`totalRequests = sum(modelUsage)`, so no torn state is observable. -/
theorem concurrent_records_no_lost_updates (ops : List (String × ℚ)) :
    (runRecords ops).totalRequests = ops.length
    ∧ sumUsage (runRecords ops).modelUsage = ops.length
    ∧ (∀ k : Nat, metricsInvariant (runRecords (ops.take k))) := by
  have hmain := runRecordsAux ops initialMetrics
  have h0 : initialMetrics.totalRequests = 0 := rfl
  have h1 : sumUsage initialMetrics.modelUsage = 0 := rfl
  refine ⟨?_, ?_, ?_⟩
  · have h := hmain.1
    unfold runRecords
    omega
  · have h := hmain.2
    unfold runRecords
    omega
  · intro k
    have h := runRecordsAux (ops.take k) initialMetrics
    have h2 := h.1
    have h3 := h.2
    unfold metricsInvariant runRecords
    omega

/-- Folding the payload field decoder over object fields none of which
fold-matches the "messages" field name leaves the payload unchanged. -/
theorem payloadFoldSkip (fields : List (String × Json)) (cur : RequestPayload)
    (h : ∀ kv ∈ fields, keyMatchesFieldName kv.1 "messages" = false) :
    fields.foldlM (fun p kv =>
        if keyMatchesFieldName kv.1 "messages" then
          (updMessages p.messages kv.2).map (fun ms => (⟨ms⟩ : RequestPayload))
        else
          .ok p) cur = .ok cur := by
  induction fields generalizing cur with
  | nil => rfl
  | cons kv rest ih =>
      have hk : keyMatchesFieldName kv.1 "messages" = false := h kv (by simp)
      rw [List.foldlM_cons, if_neg (by simp [hk])]
      exact ih cur (fun kv' hkv' => h kv' (by simp [hkv']))

/-- C9: a syntactically valid JSON object in which the messages field is
absent — no key that `json.Unmarshal` maps to the `Messages` field, i.e.
none that case-insensitively fold-matches "messages" — unmarshals to the
zero payload (nil messages), and any body that unmarshals to a payload
with no user-role message — including an empty messages array — yields
prompt length 0 rather than an error, which the policy routes to the
CheapModel endpoint with estimated cost 0. -/
theorem no_user_messages_routes_cheap_zero_cost :
    (∀ fields : List (String × Json),
        (∀ kv ∈ fields, keyMatchesFieldName kv.1 "messages" = false) →
        unmarshalRequestPayload (some (.obj fields)) = .ok RequestPayload.zero)
    ∧ (∀ (j : Json) (p : RequestPayload), unmarshalRequestPayload (some j) = .ok p →
        (∀ m ∈ p.messages, m.role ≠ "user") →
        getPromptLength (some j) = .ok 0
          ∧ (route ((0 : Nat) : Int)).modelName = "CheapModel"
          ∧ (route ((0 : Nat) : Int)).targetURL = cheapModelURL
          ∧ estimatedCostOf 0 (route ((0 : Nat) : Int)).costPerChar = 0) := by
  constructor
  · intro fields h
    unfold unmarshalRequestPayload updPayload
    exact payloadFoldSkip fields RequestPayload.zero h
  · intro j p h hnone
    have hf : p.messages.filter (fun m => m.role == "user") = [] := by
      rw [List.filter_eq_nil_iff]
      intro a ha
      simp [hnone a ha]
    refine ⟨?_, by decide, by decide, by simp [estimatedCostOf]⟩
    unfold getPromptLength
    rw [h]
    simp [userLengthFoldl, hf]

/-- Witness for C9: an object without "messages" unmarshals to the empty
payload, and a single system message yields prompt length 0. -/
theorem no_user_messages_routes_cheap_zero_cost_witness :
    unmarshalRequestPayload (some (.obj [("model", .str "gpt")])) = .ok RequestPayload.zero
      ∧ getPromptLength (some (.obj [("messages", .arr
          [.obj [("role", .str "system"), ("content", .str "be nice")]])])) = .ok 0 :=
  ⟨no_user_messages_routes_cheap_zero_cost.1 [("model", .str "gpt")] (by decide),
   (no_user_messages_routes_cheap_zero_cost.2
      (.obj [("messages", .arr [.obj [("role", .str "system"), ("content", .str "be nice")]])])
      ⟨[⟨"system", "be nice"⟩]⟩ rfl (by simp)).1⟩

/-- C10: on every body that unmarshals to a valid payload in which every
message has role "user", the earlier variant's `analyzePrompt` returns
exactly the (destination URL, model name) pair that the canonical
variant's routing computes from `getPromptLength`'s result. -/
theorem variants_route_agree (j : Json) (p : RequestPayload)
    (h : unmarshalRequestPayload (some j) = .ok p)
    (hall : ∀ m ∈ p.messages, m.role = "user") :
    ∃ n : Nat, getPromptLength (some j) = .ok n
      ∧ analyzePrompt (some j)
          = ((route (n : Int)).targetURL, (route (n : Int)).modelName) := by
  refine ⟨(p.messages.map (fun m => m.content.utf8ByteSize)).sum, ?_, ?_⟩
  · have hf : p.messages.filter (fun m => m.role == "user") = p.messages := by
      rw [List.filter_eq_self]
      intro a ha
      simp [hall a ha]
    unfold getPromptLength
    rw [h]
    simp [userLengthFoldl, hf]
  · unfold analyzePrompt
    rw [h]
    simp only [allLengthFoldl, Nat.zero_add]
    unfold route promptLengthThreshold
    set S : Nat := (p.messages.map (fun m => m.content.utf8ByteSize)).sum with hS
    by_cases hn : (S : Int) ≤ 150
    · have h1 : ¬((S : Int) > 150) := by omega
      rw [if_neg h1, if_pos hn]
    · have h1 : (S : Int) > 150 := by omega
      rw [if_pos h1, if_neg hn]

/-- Witness for C10 at a concrete all-user body: both variants route it
to the cheap endpoint. -/
theorem variants_route_agree_witness :
    ∃ n : Nat,
      getPromptLength (some (.obj [("messages", .arr
          [.obj [("role", .str "user"), ("content", .str "hi")]])])) = .ok n
        ∧ analyzePrompt (some (.obj [("messages", .arr
            [.obj [("role", .str "user"), ("content", .str "hi")]])]))
            = ((route (n : Int)).targetURL, (route (n : Int)).modelName) :=
  variants_route_agree _ ⟨[⟨"user", "hi"⟩]⟩ rfl (by simp)

end LLMGateway
